import Mathlib

/-
Verification development for the rinha payment dispatch system.

The definitions below are a shallow embedding of the Rust sources:
  src/api/src/main.rs          (dispatcher: ProviderHandler.process_payment, worker loop)
  src/rinha-db/src/main.rs     (store: database_worker command loop, handle_client)
  src/shared-types/src/lib.rs  (Summary, GlobalSummary, UnixConnectionPool, PooledConnection)
  src/gateway/src/main.rs      (gateway handlers exec_payment, get_payments_summary)

Modelling conventions:
  - f64 payment amounts are modelled as Rat where only their additive
    behaviour matters (store summaries), and as their 64-bit pattern
    (a Nat taken mod 2 ^ 64) where the byte-level encoding matters
    (to_be_bytes / from_be_bytes in the Read path).
  - HTTP and socket transport is modelled by explicit outcome values:
    a provider POST yields success (2xx), httpError (non-2xx status,
    the error_for_status branch) or transportError (send returned Err,
    which the source propagates with the question-mark operator).
  - The store socket used by the dispatcher to emit Write frames is
    modelled as reliable; the emitted frames are collected in a list.
  - A Rust panic (unwrap or expect on a failing value) is modelled as
    a distinguished outcome (HttpOutcome.panicked, or Option.none in
    the byte-level decode).
-/

namespace Rinha

/-! ## Shared data model (src/shared-types/src/lib.rs) -/

/-- Partition tag, from enum SledTree in src/shared-types/src/lib.rs. -/
inductive SledTree
  | Fallback
  | Default
  deriving DecidableEq, Repr

/-- Per-partition summary, from struct Summary in src/shared-types/src/lib.rs.
total_requests is u64 in the source (overflow is immaterial here), the
f64 total_amount is modelled as Rat. -/
structure Summary where
  total_requests : Nat
  total_amount : Rat
  deriving DecidableEq, Repr

/-- Summary.new from the source: zero requests, zero amount. -/
def Summary.new : Summary := ⟨0, 0⟩

/-- Global summary over both partitions, from struct GlobalSummary. -/
structure GlobalSummary where
  default : Summary
  fallback : Summary
  deriving DecidableEq, Repr

/-- Payment as received by the gateway and the dispatcher, from struct
PaymentDTO. The Uuid correlation id is modelled as a String. -/
structure PaymentDTO where
  correlation_id : String
  amount : Rat
  deriving DecidableEq, Repr

/-- Submission body sent to a provider, from struct PaymentServiceDTO in
src/api/src/main.rs. -/
structure PaymentServiceDTO where
  correlation_id : String
  amount : Rat
  requested_at : String
  deriving DecidableEq, Repr

/-- PaymentServiceDTO.new from src/api/src/main.rs. -/
def PaymentServiceDTO.new (payment : PaymentDTO) (requested_at : String) :
    PaymentServiceDTO :=
  ⟨payment.correlation_id, payment.amount, requested_at⟩

/-! ## Dispatcher (src/api/src/main.rs, ProviderHandler.process_payment) -/

/-- Outcome of one provider POST as seen by the dispatcher: success is a
2xx response, httpError is a completed response with a non-2xx status
(error_for_status returns Err), transportError is send returning Err. -/
inductive SendResult
  | success
  | httpError
  | transportError
  deriving DecidableEq, Repr

/-- Environment for one process_payment run: what each provider would
answer if POSTed to. -/
structure ProcEnv where
  defaultResp : SendResult
  fallbackResp : SendResult
  deriving DecidableEq, Repr

/-- Which provider an attempt was made against. -/
inductive ProviderKind
  | default
  | fallback
  deriving DecidableEq, Repr

/-- Write frame sent to the store, from the Message.Write variant used at
src/api/src/main.rs lines 166 and 189. -/
structure WriteMsg where
  key : String
  value : Rat
  tree : SledTree
  deriving DecidableEq, Repr

instance : DecidableEq (Except Unit Unit) := fun a b =>
  match a, b with
  | Except.ok (), Except.ok () => isTrue rfl
  | Except.error (), Except.error () => isTrue rfl
  | Except.ok (), Except.error () => isFalse (fun h => Except.noConfusion h)
  | Except.error (), Except.ok () => isFalse (fun h => Except.noConfusion h)

/-- Observable trace of one process_payment call: the provider attempts
in order, the Write frames emitted to the store socket, and the returned
anyhow Result (error () models an Err propagated by the question-mark
operator on a transport error). -/
structure Trace where
  attempts : List (ProviderKind × SendResult)
  writes : List WriteMsg
  result : Except Unit Unit
  deriving DecidableEq, Repr

/-- Shallow embedding of ProviderHandler.process_payment
(src/api/src/main.rs lines 153-203). now is the rfc3339 string computed
at entry; the submission body is built once and reused. The source makes
exactly one POST to the default provider; on Ok it emits one Write to
the Default partition keyed by now; on a non-2xx status it makes exactly
one POST to the fallback provider and on success emits one Write to the
Fallback partition; a transport error on either send propagates out as
Err via the question-mark operator; any other outcome returns Ok. -/
def process_payment (now : String) (payment : PaymentDTO) (env : ProcEnv) :
    Trace :=
  let payload := PaymentServiceDTO.new payment now
  match env.defaultResp with
  | SendResult.transportError =>
      ⟨[(ProviderKind.default, SendResult.transportError)], [], Except.error ()⟩
  | SendResult.success =>
      ⟨[(ProviderKind.default, SendResult.success)],
        [⟨now, payload.amount, SledTree.Default⟩], Except.ok ()⟩
  | SendResult.httpError =>
      match env.fallbackResp with
      | SendResult.transportError =>
          ⟨[(ProviderKind.default, SendResult.httpError),
            (ProviderKind.fallback, SendResult.transportError)], [],
            Except.error ()⟩
      | SendResult.success =>
          ⟨[(ProviderKind.default, SendResult.httpError),
            (ProviderKind.fallback, SendResult.success)],
            [⟨now, payload.amount, SledTree.Fallback⟩], Except.ok ()⟩
      | SendResult.httpError =>
          ⟨[(ProviderKind.default, SendResult.httpError),
            (ProviderKind.fallback, SendResult.httpError)], [], Except.ok ()⟩

/-- Count of attempts against one provider in a trace. -/
def attemptsOn (tr : Trace) (p : ProviderKind) : Nat :=
  (tr.attempts.filter (fun a => a.1 == p)).length

/-- Partition written on success of a given provider. -/
def treeFor : ProviderKind → SledTree
  | ProviderKind.default => SledTree.Default
  | ProviderKind.fallback => SledTree.Fallback

/-- Shallow embedding of one iteration of the worker loop
(src/api/src/main.rs lines 43-49): recv pops the head of the queue, the
payment is processed, an Err result is only logged; nothing is ever
pushed back. Returns the remaining queue and the trace of the processed
payment, or none when the queue is empty. -/
def workerStep (now : String) (env : ProcEnv) :
    List PaymentDTO → List PaymentDTO × Option Trace
  | [] => ([], none)
  | p :: rest => (rest, some (process_payment now p env))

/-- Both providers failed to accept the payment: the default POST had a
transport error, or it came back non-2xx and the fallback POST did not
succeed. -/
def bothFail (env : ProcEnv) : Prop :=
  env.defaultResp = SendResult.transportError ∨
    (env.defaultResp = SendResult.httpError ∧
      env.fallbackResp ≠ SendResult.success)

instance (env : ProcEnv) : Decidable (bothFail env) := by
  unfold bothFail; infer_instance

/-! ## Claims C1, C2, C5 (dispatcher) -/

/-- C1 counterexample. The claim says that when the default provider
keeps failing the worker POSTs to it 5 times with 500 ms back-off before
falling back. On an environment where both providers answer non-2xx the
trace shows exactly one attempt against the default provider (and one
against the fallback): the source has no retry loop and no back-off. -/
theorem c1_counterexample :
    attemptsOn
      (process_payment "2025-01-01T00:00:00+00:00" ⟨"cid-1", 10⟩
        ⟨SendResult.httpError, SendResult.httpError⟩)
      ProviderKind.default = 1 ∧
    (process_payment "2025-01-01T00:00:00+00:00" ⟨"cid-1", 10⟩
        ⟨SendResult.httpError, SendResult.httpError⟩).attempts =
      [(ProviderKind.default, SendResult.httpError),
        (ProviderKind.fallback, SendResult.httpError)] := by
  exact ⟨rfl, rfl⟩

/-- C1 amended: for every dequeued payment the worker POSTs to the
default provider exactly once (no retries, no back-off); it attempts the
fallback provider exactly once when and only when the default attempt
returned a non-2xx status; a transport error on the default POST
propagates without any fallback attempt. -/
theorem c1_amended_attempt_counts (now : String) (payment : PaymentDTO)
    (env : ProcEnv) :
    attemptsOn (process_payment now payment env) ProviderKind.default = 1 ∧
    attemptsOn (process_payment now payment env) ProviderKind.fallback =
      (if env.defaultResp = SendResult.httpError then 1 else 0) := by
  obtain ⟨d, f⟩ := env
  cases d <;> cases f <;> exact ⟨rfl, rfl⟩

/-- C2: whenever a provider attempt succeeds (2xx), the worker emits
exactly one Write frame to the store, whose partition is the provider
that succeeded, whose value is the payment amount, and whose key is the
requested_at string carried in the submission body sent to that
provider. -/
theorem c2_write_matches_submission (now : String) (payment : PaymentDTO)
    (env : ProcEnv) (prov : ProviderKind)
    (h : (prov, SendResult.success) ∈ (process_payment now payment env).attempts) :
    (process_payment now payment env).writes =
      [⟨(PaymentServiceDTO.new payment now).requested_at,
        (PaymentServiceDTO.new payment now).amount, treeFor prov⟩] := by
  obtain ⟨d, f⟩ := env
  cases d <;> cases f <;> cases prov <;>
    simp_all [process_payment, PaymentServiceDTO.new, treeFor]

/-- C2 witness: concrete run where the default provider succeeds; the
single emitted Write carries the submission key, the amount and the
Default partition. -/
theorem c2_witness :
    (process_payment "2025-01-01T00:00:00+00:00" ⟨"cid-2", 10⟩
      ⟨SendResult.success, SendResult.httpError⟩).writes =
      [⟨"2025-01-01T00:00:00+00:00", 10, SledTree.Default⟩] :=
  c2_write_matches_submission "2025-01-01T00:00:00+00:00" ⟨"cid-2", 10⟩
    ⟨SendResult.success, SendResult.httpError⟩ ProviderKind.default
    (by decide)

/-- C5 counterexample. The claim says no provider error propagates out
of process_payment for any combination of outcomes. When the default
POST fails at the transport level, the source propagates the error with
the question-mark operator: the call returns Err (the worker then only
logs it). The payment is still dropped with no store write. -/
theorem c5_counterexample :
    (process_payment "2025-01-01T00:00:00+00:00" ⟨"cid-5", 1⟩
      ⟨SendResult.transportError, SendResult.success⟩).result =
      Except.error () ∧
    (process_payment "2025-01-01T00:00:00+00:00" ⟨"cid-5", 1⟩
      ⟨SendResult.transportError, SendResult.success⟩).writes = [] := by
  exact ⟨rfl, rfl⟩

/-- C5 amended: the worker never requeues a dequeued payment (the queue
only shrinks); when both providers fail no store write is emitted; the
call returns Err exactly when a transport error occurred (on the default
POST, or on the fallback POST after a non-2xx default); non-2xx
outcomes are swallowed into Ok. -/
theorem c5_amended_drop_semantics (now : String) (env : ProcEnv)
    (p : PaymentDTO) (rest : List PaymentDTO) :
    (workerStep now env (p :: rest)).1 = rest ∧
    (bothFail env → (process_payment now p env).writes = []) ∧
    ((process_payment now p env).result = Except.error () ↔
      (env.defaultResp = SendResult.transportError ∨
        (env.defaultResp = SendResult.httpError ∧
          env.fallbackResp = SendResult.transportError))) := by
  obtain ⟨d, f⟩ := env
  cases d <;> cases f <;>
    refine ⟨rfl, ?_, ?_⟩ <;> simp [process_payment, bothFail]

/-- C5 witness: with both providers answering non-2xx, the queue loses
exactly the processed payment and no Write frame is emitted. -/
theorem c5_witness :
    (workerStep "2025-01-01T00:00:00+00:00"
      ⟨SendResult.httpError, SendResult.httpError⟩
      [⟨"cid-5a", 1⟩, ⟨"cid-5b", 2⟩]).1 = [⟨"cid-5b", 2⟩] ∧
    (process_payment "2025-01-01T00:00:00+00:00" ⟨"cid-5a", 1⟩
      ⟨SendResult.httpError, SendResult.httpError⟩).writes = [] := by
  have h := c5_amended_drop_semantics "2025-01-01T00:00:00+00:00"
    ⟨SendResult.httpError, SendResult.httpError⟩ ⟨"cid-5a", 1⟩ [⟨"cid-5b", 2⟩]
  exact ⟨h.1, h.2.1 (Or.inr ⟨rfl, by decide⟩)⟩

/-! ## Store (src/rinha-db/src/main.rs, database_worker) -/

/-- One sled tree at the value level: an association list from rfc3339
string keys to amounts, with at most one entry per key (sled insert is
an upsert). -/
abbrev Tree := List (String × Rat)

/-- Upsert of sled Tree.insert: any previous entry for the key is
replaced. -/
def insertKV (tree : Tree) (key : String) (value : Rat) : Tree :=
  tree.filter (fun kv => kv.1 ≠ key) ++ [(key, value)]

/-- Lexicographic order on char lists, modelling the byte-wise order
Rust uses on str keys (UTF-8 byte order agrees with code-point order). -/
def charListLe : List Char → List Char → Bool
  | [], _ => true
  | _ :: _, [] => false
  | a :: as, b :: bs =>
      if a = b then charListLe as bs else decide (a < b)

/-- Key order of the store: lexicographic on the characters. -/
def strLe (a b : String) : Bool :=
  charListLe a.data b.data

/-- Inclusive range scan, from tree.range(lo..=hi) at
src/rinha-db/src/main.rs lines 41-43: records whose key k satisfies
lo ≤ k and k ≤ hi, both ends inclusive. -/
def rangeScan (tree : Tree) (lo hi : String) : Tree :=
  tree.filter (fun kv => strLe lo kv.1 && strLe kv.1 hi)

/-- Summary.from_iter from src/shared-types/src/lib.rs lines 55-68: fold
the scanned records into a Summary, adding each amount and counting each
record once, starting from Summary.new. -/
def Summary.from_iter (records : Tree) : Summary :=
  records.foldl
    (fun s kv => ⟨s.total_requests + 1, s.total_amount + kv.2⟩)
    Summary.new

/-- State owned by the database worker: the two partitions. -/
structure DbState where
  default_tree : Tree
  fallback_tree : Tree
  deriving DecidableEq, Repr

/-- Command enum from src/rinha-db/src/main.rs lines 12-24 (the
response channel of Read is modelled by readSummary below). -/
inductive Command
  | read (lo hi : String)
  | write (key : String) (value : Rat) (tree : SledTree)
  | purge
  deriving DecidableEq, Repr

/-- Response computed for a Read command (database_worker lines 34-56):
one Summary per partition over the inclusive range. -/
def readSummary (s : DbState) (lo hi : String) : GlobalSummary :=
  ⟨Summary.from_iter (rangeScan s.default_tree lo hi),
    Summary.from_iter (rangeScan s.fallback_tree lo hi)⟩

/-- State transition of one command in database_worker (lines 32-87):
Read leaves the state unchanged, Write upserts into the chosen
partition, Purge drops both trees (sled recreates them empty on the
next access). -/
def applyCommand (s : DbState) : Command → DbState
  | Command.read _ _ => s
  | Command.write key value SledTree.Fallback =>
      ⟨s.default_tree, insertKV s.fallback_tree key value⟩
  | Command.write key value SledTree.Default =>
      ⟨insertKV s.default_tree key value, s.fallback_tree⟩
  | Command.purge => ⟨[], []⟩

/-- Serialized command loop: commands are applied one at a time in
arrival order. -/
def applyAll (s : DbState) (cmds : List Command) : DbState :=
  cmds.foldl applyCommand s

/-- True for commands that are not writes. -/
def Command.isWrite : Command → Bool
  | Command.write _ _ _ => true
  | _ => false

/-- The from_iter fold, started anywhere, adds the record count to the
request counter and the amounts to the running total. -/
theorem foldl_summary (l : Tree) : ∀ (s : Summary),
    l.foldl (fun s kv => ⟨s.total_requests + 1, s.total_amount + kv.2⟩) s =
      ⟨s.total_requests + l.length, s.total_amount + (l.map Prod.snd).sum⟩ := by
  induction l with
  | nil => intro s; simp
  | cons kv t ih =>
      intro s
      simp only [List.foldl_cons, ih, List.length_cons, List.map_cons,
        List.sum_cons, Summary.mk.injEq]
      constructor
      · omega
      · ring

/-- Summary.from_iter counts the records and sums their amounts. -/
theorem from_iter_spec (l : Tree) :
    Summary.from_iter l = ⟨l.length, (l.map Prod.snd).sum⟩ := by
  simp [Summary.from_iter, foldl_summary, Summary.new]

/-! ## Claims C3, C4 (store) -/

/-- C3: for rfc3339 strings with lo ≤ hi, a Read command returns, for
each partition independently, total_requests equal to the number of
stored records whose key k satisfies lo ≤ k ≤ hi (inclusive on both
ends) and total_amount equal to the sum of those records amounts. -/
theorem c3_read_counts_and_sums (dt ft : Tree) (lo hi : String)
    (_h : strLe lo hi = true) :
    (readSummary ⟨dt, ft⟩ lo hi).default.total_requests
        = (dt.filter fun kv => strLe lo kv.1 && strLe kv.1 hi).length ∧
    (readSummary ⟨dt, ft⟩ lo hi).default.total_amount
        = ((dt.filter fun kv => strLe lo kv.1 && strLe kv.1 hi).map
            Prod.snd).sum ∧
    (readSummary ⟨dt, ft⟩ lo hi).fallback.total_requests
        = (ft.filter fun kv => strLe lo kv.1 && strLe kv.1 hi).length ∧
    (readSummary ⟨dt, ft⟩ lo hi).fallback.total_amount
        = ((ft.filter fun kv => strLe lo kv.1 && strLe kv.1 hi).map
            Prod.snd).sum := by
  simp [readSummary, rangeScan, from_iter_spec]

/-- C3 witness: the S4 scenario range query from the spec, three default
records of which two fall in the 2024 range, counted and summed. -/
theorem c3_witness :
    (readSummary
        ⟨[("2024-01-01T00:00:00Z", 1), ("2024-06-01T00:00:00Z", 2),
          ("2025-01-01T00:00:00Z", 4)], []⟩
        "2024-01-01T00:00:00Z" "2024-12-31T23:59:59Z").default.total_requests
      = 2 ∧
    (readSummary
        ⟨[("2024-01-01T00:00:00Z", 1), ("2024-06-01T00:00:00Z", 2),
          ("2025-01-01T00:00:00Z", 4)], []⟩
        "2024-01-01T00:00:00Z" "2024-12-31T23:59:59Z").default.total_amount
      = 3 := by
  have h := c3_read_counts_and_sums
    [("2024-01-01T00:00:00Z", 1), ("2024-06-01T00:00:00Z", 2),
      ("2025-01-01T00:00:00Z", 4)] []
    "2024-01-01T00:00:00Z" "2024-12-31T23:59:59Z" (by decide)
  refine ⟨h.1.trans (by decide), h.2.1.trans ?_⟩
  have hf :
      List.filter
        (fun kv => strLe "2024-01-01T00:00:00Z" kv.1 &&
          strLe kv.1 "2024-12-31T23:59:59Z")
        [("2024-01-01T00:00:00Z", (1 : Rat)), ("2024-06-01T00:00:00Z", 2),
          ("2025-01-01T00:00:00Z", 4)]
        = [("2024-01-01T00:00:00Z", (1 : Rat)), ("2024-06-01T00:00:00Z", 2)] := by
    decide
  rw [hf]
  norm_num

/-- Applying only non-write commands to the empty state leaves it
empty. -/
theorem applyAll_no_write_empty (cmds : List Command)
    (hc : ∀ c ∈ cmds, c.isWrite = false) :
    applyAll ⟨[], []⟩ cmds = ⟨[], []⟩ := by
  induction cmds with
  | nil => rfl
  | cons c t ih =>
      have hct := hc c (List.mem_cons_self c t)
      have hstep : applyCommand ⟨[], []⟩ c = ⟨[], []⟩ := by
        cases c with
        | read lo hi => rfl
        | write key v tree => simp [Command.isWrite] at hct
        | purge => rfl
      calc applyAll ⟨[], []⟩ (c :: t)
          = applyAll (applyCommand ⟨[], []⟩ c) t := rfl
        _ = applyAll ⟨[], []⟩ t := by rw [hstep]
        _ = ⟨[], []⟩ := ih (fun d hd => hc d (List.mem_cons_of_mem c hd))

/-- C4: after a Purge is applied by the command loop, every later Read
over any range returns zero requests and zero amount for both
partitions, as long as only non-write commands follow; and a Write
applied after the Purge succeeds and its record is visible to later
Reads that cover its key. -/
theorem c4_purge_semantics (s : DbState) (cmds : List Command)
    (hc : ∀ c ∈ cmds, c.isWrite = false) :
    (∀ lo hi,
      readSummary (applyAll (applyCommand s Command.purge) cmds) lo hi
        = ⟨Summary.new, Summary.new⟩) ∧
    (∀ lo hi key v tree, strLe lo key = true → strLe key hi = true →
      readSummary
          (applyCommand (applyAll (applyCommand s Command.purge) cmds)
            (Command.write key v tree)) lo hi
        = (match tree with
            | SledTree.Default => ⟨⟨1, v⟩, Summary.new⟩
            | SledTree.Fallback => ⟨Summary.new, ⟨1, v⟩⟩)) := by
  have hempty : applyAll (applyCommand s Command.purge) cmds = ⟨[], []⟩ :=
    applyAll_no_write_empty cmds hc
  constructor
  · intro lo hi
    rw [hempty]
    rfl
  · intro lo hi key v tree hlo hhi
    rw [hempty]
    cases tree <;>
      simp [applyCommand, insertKV, readSummary, rangeScan, hlo, hhi,
        Summary.from_iter, Summary.new]

/-- C4 witness: a purge followed by a read and another purge still reads
zeros over a covering range, and a write of 7 at a concrete key becomes
visible to a covering read. -/
theorem c4_witness :
    readSummary
        (applyAll
          (applyCommand ⟨[("2024-01-01T00:00:00Z", 5)], []⟩ Command.purge)
          [Command.read "a" "b", Command.purge])
        "2024-01-01T00:00:00Z" "2026-01-01T00:00:00Z"
      = ⟨Summary.new, Summary.new⟩ ∧
    readSummary
        (applyCommand
          (applyAll
            (applyCommand ⟨[("2024-01-01T00:00:00Z", 5)], []⟩ Command.purge)
            [Command.read "a" "b", Command.purge])
          (Command.write "2025-06-15T12:00:00Z" 7 SledTree.Default))
        "2024-01-01T00:00:00Z" "2026-01-01T00:00:00Z"
      = ⟨⟨1, 7⟩, Summary.new⟩ := by
  have h := c4_purge_semantics ⟨[("2024-01-01T00:00:00Z", 5)], []⟩
    [Command.read "a" "b", Command.purge]
    (by intro c hc; fin_cases hc <;> rfl)
  exact ⟨h.1 "2024-01-01T00:00:00Z" "2026-01-01T00:00:00Z",
    h.2 "2024-01-01T00:00:00Z" "2026-01-01T00:00:00Z" "2025-06-15T12:00:00Z"
      7 SledTree.Default (by decide) (by decide)⟩

/-! ## Ingress line loop (src/api/src/main.rs lines 58-75 and
src/rinha-db/src/main.rs handle_client lines 117-157)

Both ingress loops have the same shape: read a line; skip it when its
trimmed form is empty; otherwise parse it with serde_json, forwarding
the parsed message on success and only logging on failure; the loop
leaves only at end of stream or io error. The JSON codec is external
library code, modelled by an arbitrary parse function. The forwarded
messages (payments pushed to the worker queue in A, commands sent to
the command loop in S) are collected in order. -/

/-- State of one ingress connection: the messages forwarded so far. -/
structure ConnState (α : Type) where
  received : List α
  deriving DecidableEq, Repr

/-- Test of line.trim().is_empty() from the sources: a line is skipped
when every character is whitespace. -/
def isBlank (line : String) : Bool :=
  line.data.all (fun c => c.isWhitespace)

/-- Handling of one line by the ingress loop. -/
def processLine {α : Type} (parse : String → Option α) (s : ConnState α)
    (line : String) : ConnState α :=
  if isBlank line then s
  else
    match parse line with
    | some m => ⟨s.received ++ [m]⟩
    | none => s

/-- Handling of a whole sequence of lines on one connection. -/
def processLines {α : Type} (parse : String → Option α) (s : ConnState α)
    (lines : List String) : ConnState α :=
  lines.foldl (processLine parse) s

/-! ## Claim C6 (ingress resilience) -/

/-- C6: a blank line or a line the parse rejects, anywhere in the
stream, changes nothing: the connection state after the whole stream is
as if the line had not been there, so no forwarded message is lost and
frames after the bad line are still processed. -/
theorem c6_bad_line_is_noop {α : Type} (parse : String → Option α)
    (s : ConnState α) (before after : List String) (line : String)
    (hbad : isBlank line = true ∨ parse line = none) :
    processLines parse s (before ++ line :: after)
      = processLines parse s (before ++ after) := by
  have hstep : ∀ t : ConnState α, processLine parse t line = t := by
    intro t
    unfold processLine
    cases hbad with
    | inl he => simp [he]
    | inr hp => cases hb : isBlank line <;> simp [hb, hp]
  simp only [processLines, List.foldl_append, List.foldl_cons, hstep]

/-- C6 witness: a malformed line between two well-formed frames is
skipped and the frames around it are both forwarded. -/
theorem c6_witness :
    processLines
      (fun l => if l = "good1" then some 1 else if l = "good2" then some 2
        else none)
      ⟨[]⟩ ["good1", "not json", "good2"]
      = processLines
        (fun l => if l = "good1" then some 1 else if l = "good2" then some 2
          else none)
        ⟨[]⟩ ["good1", "good2"] ∧
    processLines
      (fun l => if l = "good1" then some 1 else if l = "good2" then some 2
        else none)
      ⟨[]⟩ ["good1", "not json", "good2"] = ⟨[1, 2]⟩ := by
  have h := c6_bad_line_is_noop
    (fun l => if l = "good1" then some 1 else if l = "good2" then some 2
      else none)
    (⟨[]⟩ : ConnState Nat) ["good1"] ["good2"] "not json"
    (Or.inr (by decide))
  exact ⟨h, h.trans (by decide)⟩

/-! ## Gateway (src/gateway/src/main.rs) -/

/-- Abstract open stream socket connection. -/
structure Conn where
  id : Nat
  deriving DecidableEq, Repr

/-- Result of an axum handler as observable by the HTTP client: either a
response with a status code, or a panic of the handler task (unwrap or
expect on a failing value), which produces no response. -/
inductive HttpOutcome
  | response (status : Nat)
  | panicked
  deriving DecidableEq, Repr

/-- API instances named by the spec; the gateway source only ever dials
the api-1 socket (AppState construction at lines 33-34). -/
inductive ApiInstance
  | api1
  | api2
  deriving DecidableEq, Repr

/-- Shallow embedding of exec_payment (src/gateway/src/main.rs lines
89-108): acquire a connection from the api pool and unwrap the result (a
panic on failure), write the serialized payload plus newline to the
api-1 socket, flush, and answer 200. The emitted frames are returned
with their destination instance. -/
def exec_payment (acquireRes : Except Unit Conn) (payload : PaymentDTO) :
    HttpOutcome × List (ApiInstance × PaymentDTO) :=
  match acquireRes with
  | Except.error _ => (HttpOutcome.panicked, [])
  | Except.ok _ => (HttpOutcome.response 200, [(ApiInstance.api1, payload)])

/-- Shallow embedding of get_payments_summary (src/gateway/src/main.rs
lines 46-86): acquire a connection from the db pool and unwrap (a panic
on failure), write the Read frame, take the stream out of the pooled
wrapper, read one response line and parse it with unwrap (a panic on a
parse failure), then answer 200 with the summary. The JSON codec is
external library code, modelled by the parse argument. -/
def get_payments_summary (acquireRes : Except Unit Conn) (respLine : String)
    (parseSummary : String → Option GlobalSummary) : HttpOutcome :=
  match acquireRes with
  | Except.error _ => HttpOutcome.panicked
  | Except.ok _ =>
      match parseSummary respLine with
      | some _ => HttpOutcome.response 200
      | none => HttpOutcome.panicked

/-- Destinations of the payment frames emitted by n consecutive
successful POST /payments requests. -/
def gatewayTargets (payload : PaymentDTO) : Nat → List ApiInstance
  | 0 => []
  | n + 1 =>
      ((exec_payment (Except.ok ⟨0⟩) payload).2.map Prod.fst)
        ++ gatewayTargets payload n

/-- Every frame the gateway emits goes to the api-1 instance. -/
theorem gatewayTargets_count (payload : PaymentDTO) (n : Nat) :
    (gatewayTargets payload n).count ApiInstance.api1 = n ∧
    (gatewayTargets payload n).count ApiInstance.api2 = 0 := by
  induction n with
  | zero => exact ⟨rfl, rfl⟩
  | succ m ih =>
      simp [gatewayTargets, exec_payment, List.count_cons, ih.1, ih.2]

/-! ## Claims C7, C8 (gateway) -/

/-- C7 counterexample. The claim says a pool-acquire failure makes the
gateway respond 500. In the source both handlers call unwrap on the
acquire result, so on a failing acquire the handler panics and no
response with a status code is produced at all. -/
theorem c7_counterexample :
    (exec_payment (Except.error ()) ⟨"cid-7", 1⟩).1 = HttpOutcome.panicked ∧
    get_payments_summary (Except.error ()) "resp" (fun _ => none)
      = HttpOutcome.panicked := by
  exact ⟨rfl, rfl⟩

/-- C7 amended: when acquiring a connection from the corresponding pool
fails, each gateway handler panics via unwrap and produces no HTTP
response (in particular no 500); on a successful acquire exec_payment
answers 200. -/
theorem c7_amended_acquire_failure_panics (payload : PaymentDTO)
    (respLine : String) (parseSummary : String → Option GlobalSummary)
    (conn : Conn) :
    (exec_payment (Except.error ()) payload).1 = HttpOutcome.panicked ∧
    get_payments_summary (Except.error ()) respLine parseSummary
      = HttpOutcome.panicked ∧
    (exec_payment (Except.ok conn) payload).1 = HttpOutcome.response 200 := by
  exact ⟨rfl, rfl, rfl⟩

/-- C8 counterexample. The claim says payments are distributed over the
configured API instances by a counter modulo the instance count, with
1000 POSTs giving about 500 frames per instance. The source has a single
hard-coded api-1 pool (and a TODO for round-robin): 1000 consecutive
POSTs put 1000 frames on api-1 and none on api-2. -/
theorem c8_counterexample :
    (gatewayTargets ⟨"cid-8", 1⟩ 1000).count ApiInstance.api1 = 1000 ∧
    (gatewayTargets ⟨"cid-8", 1⟩ 1000).count ApiInstance.api2 = 0 :=
  gatewayTargets_count ⟨"cid-8", 1⟩ 1000

/-- C8 amended: the gateway sends every framed payment to the single
api-1 pool; there is no counter and no modulo distribution, so n
consecutive POSTs produce n frames on api-1 and none on api-2. -/
theorem c8_amended_single_instance (payload : PaymentDTO) (n : Nat) :
    (gatewayTargets payload n).count ApiInstance.api1 = n ∧
    (gatewayTargets payload n).count ApiInstance.api2 = 0 :=
  gatewayTargets_count payload n

/-! ## Socket pool (src/shared-types/src/lib.rs lines 90-267) -/

/-- Connection pool state: the idle queue (SegQueue, pushed at the back
and popped at the front), the configured soft cap, and the relaxed
atomic size counter. -/
structure UnixConnectionPool where
  connections : List Conn
  pool_size : Nat
  current_size : Nat
  deriving DecidableEq, Repr

/-- try_get_connection: non-blocking pop of an idle connection with a
counter decrement. -/
def try_get_connection (p : UnixConnectionPool) :
    Option (Conn × UnixConnectionPool) :=
  match p.connections with
  | [] => none
  | c :: rest => some (c, ⟨rest, p.pool_size, p.current_size - 1⟩)

/-- return_connection: push the connection back and increment the
counter when the counter is below the cap, drop it otherwise. -/
def return_connection (p : UnixConnectionPool) (c : Conn) :
    UnixConnectionPool :=
  if p.current_size < p.pool_size then
    ⟨p.connections ++ [c], p.pool_size, p.current_size + 1⟩
  else p

/-- Pooled wrapper around a borrowed connection; conn = none after the
connection was taken out. -/
structure PooledConnection where
  conn : Option Conn
  deriving DecidableEq, Repr

/-- PooledConnection.new from the source. -/
def PooledConnection.new (c : Conn) : PooledConnection := ⟨some c⟩

/-- PooledConnection.take: move the connection out of the wrapper,
preventing the automatic return to the pool. -/
def PooledConnection.take (pc : PooledConnection) :
    Option Conn × PooledConnection :=
  (pc.conn, ⟨none⟩)

/-- Drop impl of PooledConnection: return the connection to the pool
only when it is still present in the wrapper. -/
def pooledDrop (p : UnixConnectionPool) (pc : PooledConnection) :
    UnixConnectionPool :=
  match pc.conn with
  | some c => return_connection p c
  | none => p

/-- acquire: pop an idle connection, or dial a new one when the queue is
empty (the dialed argument is the freshly created connection; the failing
dial case is claim C7). -/
def acquire (p : UnixConnectionPool) (dialed : Conn) :
    PooledConnection × UnixConnectionPool :=
  match try_get_connection p with
  | some (c, p2) => (PooledConnection.new c, p2)
  | none => (PooledConnection.new dialed, p)

/-- Effect of one get_payments_summary call on the db pool
(src/gateway/src/main.rs lines 61-85): acquire, then take the stream out
of the wrapper to read the response, then drop the wrapper at the end of
the handler. -/
def summaryPoolEffect (p : UnixConnectionPool) (dialed : Conn) :
    UnixConnectionPool :=
  let a := acquire p dialed
  let t := a.1.take
  pooledDrop a.2 t.2

/-! ## Claim C9 (pool shrinks on summary reads) -/

/-- C9: every summary query permanently removes the acquired store
connection from the pool. The handler takes ownership of the stream out
of the pooled wrapper before reading, so the Drop impl returns nothing:
the idle queue loses its head (and stays empty when it was empty, the
freshly dialed connection being lost as well), the size counter goes
down by one on a non-empty queue, and nothing is ever pushed back. -/
theorem c9_summary_shrinks_pool (p : UnixConnectionPool) (dialed : Conn) :
    (summaryPoolEffect p dialed).connections = p.connections.tail ∧
    (summaryPoolEffect p dialed).current_size
      = p.current_size - (if p.connections.isEmpty then 0 else 1) ∧
    (summaryPoolEffect p dialed).pool_size = p.pool_size := by
  obtain ⟨conns, ps, cs⟩ := p
  cases conns <;>
    simp [summaryPoolEffect, acquire, try_get_connection,
      PooledConnection.new, PooledConnection.take, pooledDrop]

/-! ## Byte-level value encoding (Command::Write at
src/rinha-db/src/main.rs lines 57-69 and Summary::from_iter at
src/shared-types/src/lib.rs lines 55-68)

The f64 amount is represented by its 64-bit IEEE-754 pattern, a Nat
taken mod 2 ^ 64. f64::to_be_bytes is then the big-endian byte list of
the pattern and f64::from_be_bytes its inverse; the expect("Expected 8
bytes") in the Read path is modelled by an Option that is none exactly
when the stored value is not 8 bytes long. Engine errors in the range
iterator are the Except.error items. -/

/-- to_be_bytes of a 64-bit pattern: exactly 8 big-endian bytes. This is
what the Write arm of the command loop stores. -/
def toBeBytes (v : Nat) : List Nat :=
  [v / 2 ^ 56 % 256, v / 2 ^ 48 % 256, v / 2 ^ 40 % 256, v / 2 ^ 32 % 256,
    v / 2 ^ 24 % 256, v / 2 ^ 16 % 256, v / 2 ^ 8 % 256, v % 256]

/-- from_be_bytes: recombine big-endian bytes into the pattern. -/
def fromBeBytes8 (bs : List Nat) : Nat :=
  bs.foldl (fun acc b => acc * 256 + b) 0

/-- Decoding of one stored value in the Read path:
value.as_ref().try_into() succeeds only on exactly 8 bytes, and the
expect turns anything else into a panic (modelled as none). -/
def decodeValue (bs : List Nat) : Option Nat :=
  if bs.length = 8 then some (fromBeBytes8 bs) else none

/-- Byte-level summary: the request count and the decoded patterns that
were folded into the total, in fold order. -/
structure SummaryB where
  total_requests : Nat
  amounts : List Nat
  deriving DecidableEq, Repr

/-- filter_map(Result::ok) in Summary::from_iter: engine errors are
dropped before decoding. -/
def oksOf (items : List (Except Unit (String × List Nat))) :
    List (String × List Nat) :=
  items.filterMap (fun r =>
    match r with
    | Except.ok x => some x
    | Except.error _ => none)

/-- Fold of the decoded records; the first bad-length value aborts the
whole computation (the panic of the expect). -/
def from_iter_bytes_aux (acc : SummaryB) :
    List (String × List Nat) → Option SummaryB
  | [] => some acc
  | kv :: rest =>
      match decodeValue kv.2 with
      | none => none
      | some d =>
          from_iter_bytes_aux ⟨acc.total_requests + 1, acc.amounts ++ [d]⟩ rest

/-- Byte-level Summary::from_iter over the raw range iterator items. -/
def from_iter_bytes (items : List (Except Unit (String × List Nat))) :
    Option SummaryB :=
  from_iter_bytes_aux ⟨0, []⟩ (oksOf items)

/-- to_be_bytes always produces 8 bytes. -/
theorem toBeBytes_length (v : Nat) : (toBeBytes v).length = 8 := rfl

/-- The fold aborts as soon as some surviving record has a value that is
not 8 bytes long. -/
theorem from_iter_bytes_aux_none (l : List (String × List Nat)) :
    ∀ acc : SummaryB, (∃ kv ∈ l, kv.2.length ≠ 8) →
      from_iter_bytes_aux acc l = none := by
  induction l with
  | nil => intro acc h; simp at h
  | cons kv rest ih =>
      intro acc h
      unfold from_iter_bytes_aux
      by_cases hk : kv.2.length = 8
      · have hrest : ∃ kv2 ∈ rest, kv2.2.length ≠ 8 := by
          obtain ⟨kv2, hmem, hlen⟩ := h
          cases hmem with
          | head => exact absurd hk hlen
          | tail _ hmem2 => exact ⟨kv2, hmem2, hlen⟩
        simp [decodeValue, hk, ih _ hrest]
      · simp [decodeValue, hk]

/-- With every surviving value 8 bytes long, the fold succeeds, counts
every record once and decodes every value once, in order. -/
theorem from_iter_bytes_aux_good (l : List (String × List Nat)) :
    ∀ acc : SummaryB, (∀ kv ∈ l, kv.2.length = 8) →
      from_iter_bytes_aux acc l
        = some ⟨acc.total_requests + l.length,
            acc.amounts ++ l.map (fun kv => fromBeBytes8 kv.2)⟩ := by
  induction l with
  | nil => intro acc _; simp [from_iter_bytes_aux]
  | cons kv rest ih =>
      intro acc h
      have hk : kv.2.length = 8 := h kv (List.mem_cons_self kv rest)
      have hrest : ∀ kv2 ∈ rest, kv2.2.length = 8 :=
        fun kv2 hm => h kv2 (List.mem_cons_of_mem kv hm)
      unfold from_iter_bytes_aux
      simp only [decodeValue, hk, if_pos]
      rw [ih _ hrest]
      simp [Nat.add_assoc, Nat.add_comm 1 rest.length]

/-! ## Claim C10 (decode panic and engine-error records) -/

/-- C10: the Read path panics (none) as soon as a surviving record holds
a value that is not exactly 8 bytes; under the precondition that every
surviving record holds a to_be_bytes encoding, as every record inserted
by the Write command does, the panic branch is unreachable and the
summary counts exactly the surviving (non engine-error) records and
decodes each of their values, so engine-error items contribute neither
to the count nor to the totals. -/
theorem c10_decode_panic_and_error_skip :
    (∀ items, (∃ kv ∈ oksOf items, kv.2.length ≠ 8) →
      from_iter_bytes items = none) ∧
    (∀ items, (∀ kv ∈ oksOf items, ∃ a, kv.2 = toBeBytes a) →
      from_iter_bytes items
        = some ⟨(oksOf items).length,
            (oksOf items).map (fun kv => fromBeBytes8 kv.2)⟩) := by
  constructor
  · intro items h
    exact from_iter_bytes_aux_none (oksOf items) ⟨0, []⟩ h
  · intro items h
    have hlen : ∀ kv ∈ oksOf items, kv.2.length = 8 := by
      intro kv hm
      obtain ⟨a, ha⟩ := h kv hm
      rw [ha]
      exact toBeBytes_length a
    have := from_iter_bytes_aux_good (oksOf items) ⟨0, []⟩ hlen
    simpa [from_iter_bytes] using this

/-- C10 witness: a 3-byte value makes the decode panic; with two
well-encoded records around an engine error, the error item is skipped
and both values decode back to their patterns. -/
theorem c10_witness :
    from_iter_bytes [Except.ok ("k1", [0, 0, 0])] = none ∧
    from_iter_bytes
        [Except.ok ("k1", toBeBytes 5), Except.error (),
          Except.ok ("k2", toBeBytes 300)]
      = some ⟨2, [5, 300]⟩ := by
  constructor
  · exact c10_decode_panic_and_error_skip.1 [Except.ok ("k1", [0, 0, 0])]
      ⟨("k1", [0, 0, 0]), by decide, by decide⟩
  · have h := c10_decode_panic_and_error_skip.2
      [Except.ok ("k1", toBeBytes 5), Except.error (),
        Except.ok ("k2", toBeBytes 300)]
      (by
        intro kv hkv
        have hcase : kv = ("k1", toBeBytes 5) ∨ kv = ("k2", toBeBytes 300) := by
          simpa [oksOf] using hkv
        rcases hcase with rfl | rfl
        · exact ⟨5, rfl⟩
        · exact ⟨300, rfl⟩)
    exact h.trans (by decide)

end Rinha
